import Mathlib

/-!
Shallow embedding of the Luculentus pipeline task scheduler
(`TaskScheduler.cpp`).  The scheduler owns FIFO queues of trace and plot
unit indices, availability flags for the gather and tonemap singletons,
a monotonic tonemap timestamp, a trace-completion counter and a sliding
window of throughput samples.  Workers call `GetNewTask` with their
previously completed task; under the lock the scheduler first applies the
completion bookkeeping and then dispatches the next task by an ordered
branch policy.

Modelling choices:
* C++ `std::queue` becomes a `List` whose head is the queue front; `push`
  appends at the tail.
* `steady_clock` time points become `Nat` milliseconds.  `GetNewTask`
  reads the clock twice (once inside `CompleteTonemapTask`, once before
  dispatch), so the embedding takes two time arguments.
* The single-precision throughput samples become `ℚ`; the sample formula
  `completedTraces * 1000.0f / ms.count()` is mirrored exactly over `ℚ`.
* The mutex disappears: the monitor body is a pure state transformer.
-/

namespace Luculentus

/-- The five task kinds of `Task::Type`. -/
inductive TaskType where
  | Trace
  | Plot
  | Gather
  | Tonemap
  | Sleep
deriving DecidableEq, Repr

/-- A `Task`: kind, the primary unit it writes (`task.unit`), and the
input units it consumes (`task.otherUnits`, built with `push_back` and
drained back-to-front on completion). -/
structure Task where
  type : TaskType
  unit : Nat
  otherUnits : List Nat
deriving DecidableEq, Repr

/-- The mutable scheduler state protected by the monitor lock of
`TaskScheduler`. -/
structure SchedulerState where
  numberOfTraceUnits : Nat
  numberOfPlotUnits : Nat
  availableTraceUnits : List Nat
  availablePlotUnits : List Nat
  doneTraceUnits : List Nat
  donePlotUnits : List Nat
  gatherUnitAvailable : Bool
  tonemapUnitAvailable : Bool
  imageChanged : Bool
  lastTonemapTime : Nat
  completedTraces : Nat
  performance : List ℚ
deriving DecidableEq, Repr

/-- `TaskScheduler::tonemappingInterval = std::chrono::seconds(30)`,
in milliseconds. -/
def tonemappingInterval : Nat := 30000

/-- The scheduler constructor: `T = max(1, 3 numberOfThreads)` trace
units, `P = max(1, numberOfThreads / 2)` plot units, every unit
available, the singletons available, `imageChanged = false`,
`lastTonemapTime` set to the construction instant, no completed traces
and an empty performance window. -/
def initState (numberOfThreads : Nat) (startTime : Nat) : SchedulerState where
  numberOfTraceUnits := max 1 (numberOfThreads * 3)
  numberOfPlotUnits := max 1 (numberOfThreads / 2)
  availableTraceUnits := List.range (max 1 (numberOfThreads * 3))
  availablePlotUnits := List.range (max 1 (numberOfThreads / 2))
  doneTraceUnits := []
  donePlotUnits := []
  gatherUnitAvailable := true
  tonemapUnitAvailable := true
  imageChanged := false
  lastTonemapTime := startTime
  completedTraces := 0
  performance := []

/-- `TaskScheduler::CompleteTraceTask`: the trace unit joins the done
queue and the trace counter increments.  (The C++ performs no
validation of `completedTask.unit`.) -/
def completeTraceTask (completedTask : Task) (s : SchedulerState) : SchedulerState :=
  { s with
    doneTraceUnits := s.doneTraceUnits ++ [completedTask.unit]
    completedTraces := s.completedTraces + 1 }

/-- `TaskScheduler::CompletePlotTask`: the input trace units return to
`availableTraceUnits`, drained from the back of `otherUnits` (so in
reverse list order), and the plot unit joins `donePlotUnits`. -/
def completePlotTask (completedTask : Task) (s : SchedulerState) : SchedulerState :=
  { s with
    availableTraceUnits := s.availableTraceUnits ++ completedTask.otherUnits.reverse
    donePlotUnits := s.donePlotUnits ++ [completedTask.unit] }

/-- `TaskScheduler::CompleteGatherTask`: the input plot units return to
`availablePlotUnits` in reverse list order, the gather unit becomes
available and the image is marked changed.  `donePlotUnits` is not
touched. -/
def completeGatherTask (completedTask : Task) (s : SchedulerState) : SchedulerState :=
  { s with
    availablePlotUnits := s.availablePlotUnits ++ completedTask.otherUnits.reverse
    gatherUnitAvailable := true
    imageChanged := true }

/-- The throughput sample of `CompleteTonemapTask`:
`completedTraces * 1000.0f / ms.count()` with `ms` the milliseconds
since the previous tonemap, mirrored over `ℚ`. -/
def tonemapSample (now : Nat) (s : SchedulerState) : ℚ :=
  (s.completedTraces * 1000 : ℚ) / ((now - s.lastTonemapTime : Nat) : ℚ)

/-- The sliding-window update of `CompleteTonemapTask`:
`performance.push_back(x); if (performance.size() > 512)
performance.pop_front();`. -/
def pushPerformance (x : ℚ) (w : List ℚ) : List ℚ :=
  if 512 < (w ++ [x]).length then (w ++ [x]).tail else w ++ [x]

/-- `TaskScheduler::CompleteTonemapTask`: both singletons become
available, the image is no longer changed, the throughput sample is
pushed into the window, the timestamp refreshes and the counter
resets.  (The mean/variance diagnostics are locals printed to stdout
and leave no state.) -/
def completeTonemapTask (now : Nat) (s : SchedulerState) : SchedulerState :=
  { s with
    gatherUnitAvailable := true
    tonemapUnitAvailable := true
    imageChanged := false
    lastTonemapTime := now
    completedTraces := 0
    performance := pushPerformance (tonemapSample now s) s.performance }

/-- `TaskScheduler::CompleteTask`: dispatch on the completed task's
kind; `Sleep` only prints a progress dot. -/
def completeTask (completedTask : Task) (now : Nat) (s : SchedulerState) : SchedulerState :=
  match completedTask.type with
  | TaskType.Trace => completeTraceTask completedTask s
  | TaskType.Plot => completePlotTask completedTask s
  | TaskType.Gather => completeGatherTask completedTask s
  | TaskType.Tonemap => completeTonemapTask now s
  | TaskType.Sleep => s

/-- `TaskScheduler::CreateSleepTask`: a bare `Sleep` task, no state
change. -/
def createSleepTask (s : SchedulerState) : Task × SchedulerState :=
  (⟨TaskType.Sleep, 0, []⟩, s)

/-- `TaskScheduler::CreateTraceTask`: pop the front of
`availableTraceUnits` as the task's unit (only called with the queue
non-empty). -/
def createTraceTask (s : SchedulerState) : Task × SchedulerState :=
  (⟨TaskType.Trace, s.availableTraceUnits.headD 0, []⟩,
   { s with availableTraceUnits := s.availableTraceUnits.tail })

/-- `TaskScheduler::CreatePlotTask`: pop the front of
`availablePlotUnits` as the task's unit and pop
`n = min(done, max(1, done / 2))` fronts of `doneTraceUnits` as its
inputs. -/
def createPlotTask (s : SchedulerState) : Task × SchedulerState :=
  (⟨TaskType.Plot, s.availablePlotUnits.headD 0,
    s.doneTraceUnits.take (min s.doneTraceUnits.length (max 1 (s.doneTraceUnits.length / 2)))⟩,
   { s with
     availablePlotUnits := s.availablePlotUnits.tail
     doneTraceUnits :=
       s.doneTraceUnits.drop (min s.doneTraceUnits.length (max 1 (s.doneTraceUnits.length / 2))) })

/-- `TaskScheduler::CreateGatherTask`: mark the gather unit busy and
drain all of `donePlotUnits` into the task's inputs. -/
def createGatherTask (s : SchedulerState) : Task × SchedulerState :=
  (⟨TaskType.Gather, 0, s.donePlotUnits⟩,
   { s with gatherUnitAvailable := false, donePlotUnits := [] })

/-- `TaskScheduler::CreateTonemapTask`: mark both singletons busy. -/
def createTonemapTask (s : SchedulerState) : Task × SchedulerState :=
  (⟨TaskType.Tonemap, 0, []⟩,
   { s with gatherUnitAvailable := false, tonemapUnitAvailable := false })

/-- Branches 2-6 of the dispatch policy of `GetNewTask` (the code after
the tonemap-interval block): plot pressure relief, primary trace work,
plot to recycle traces, gather to recycle plots, and the sleep
fallback. -/
def dispatchRest (s : SchedulerState) : Task × SchedulerState :=
  if s.numberOfTraceUnits / 2 < s.doneTraceUnits.length ∧ s.availablePlotUnits ≠ [] then
    createPlotTask s
  else if s.availableTraceUnits ≠ [] then
    createTraceTask s
  else if s.availablePlotUnits ≠ [] ∧ s.doneTraceUnits ≠ [] then
    createPlotTask s
  else if s.gatherUnitAvailable = true ∧ s.donePlotUnits ≠ [] then
    createGatherTask s
  else
    createSleepTask s

/-- The dispatch half of `GetNewTask` (after `CompleteTask` has run):
the time-triggered display-refresh block, falling through to
`dispatchRest`. -/
def dispatch (now : Nat) (s : SchedulerState) : Task × SchedulerState :=
  if tonemappingInterval < now - s.lastTonemapTime then
    if s.imageChanged = true then
      if s.gatherUnitAvailable = true ∧ s.tonemapUnitAvailable = true then
        createTonemapTask s
      else
        dispatchRest s
    else
      if s.gatherUnitAvailable = true ∧ s.donePlotUnits ≠ [] then
        createGatherTask s
      else
        dispatchRest s
  else
    dispatchRest s

/-- `TaskScheduler::GetNewTask`: apply the completion of the passed-in
task, then dispatch.  `nowC` is the clock read inside
`CompleteTonemapTask`, `nowD` the read before the dispatch branches. -/
def getNewTask (completedTask : Task) (nowC nowD : Nat) (s : SchedulerState) :
    Task × SchedulerState :=
  dispatch nowD (completeTask completedTask nowC s)

/-- The scheduler together with the multiset of in-flight tasks:
tasks handed out by `getNewTask` and not yet completed. -/
structure Sys where
  sched : SchedulerState
  inflight : List Task
deriving DecidableEq, Repr

/-- One interaction of a conforming worker with the scheduler.  A
command `(nowC, nowD, c)` either lets a fresh worker call `getNewTask`
with the sentinel `Sleep` completion (`c = none`), or lets the worker
holding in-flight task `i` complete it and receive the next task
(`c = some i`); an out-of-range index is a no-op. -/
def sysStep (cmd : Nat × Nat × Option Nat) (sys : Sys) : Sys :=
  match cmd with
  | (nowC, nowD, none) =>
      let r := getNewTask ⟨TaskType.Sleep, 0, []⟩ nowC nowD sys.sched
      ⟨r.2, sys.inflight ++ [r.1]⟩
  | (nowC, nowD, some i) =>
      if h : i < sys.inflight.length then
        let r := getNewTask (sys.inflight.get ⟨i, h⟩) nowC nowD sys.sched
        ⟨r.2, sys.inflight.eraseIdx i ++ [r.1]⟩
      else
        sys

/-- Run a script of worker interactions. -/
def sysRun (script : List (Nat × Nat × Option Nat)) (sys : Sys) : Sys :=
  script.foldl (fun sy c => sysStep c sy) sys

/-- The freshly constructed system: initial scheduler state, nothing in
flight. -/
def initSys (numberOfThreads : Nat) (startTime : Nat) : Sys :=
  ⟨initState numberOfThreads startTime, []⟩

/-- System states reachable from construction by conforming workers. -/
def Reachable (numberOfThreads : Nat) (startTime : Nat) (sys : Sys) : Prop :=
  ∃ script, sysRun script (initSys numberOfThreads startTime) = sys

/-- The ordered six-branch dispatch policy exactly as worded in spec
section 4.2, written as a flat first-match-wins rule over the
post-completion scheduler state.  This definition follows the spec's
words (not the code) and is compared against `dispatch` in the
refinement theorem for the policy claim. -/
def specPolicyKind (now : Nat) (s : SchedulerState) : TaskType :=
  if tonemappingInterval < now - s.lastTonemapTime ∧ s.imageChanged = true ∧
      s.gatherUnitAvailable = true ∧ s.tonemapUnitAvailable = true then
    TaskType.Tonemap
  else if tonemappingInterval < now - s.lastTonemapTime ∧ s.imageChanged = false ∧
      s.donePlotUnits ≠ [] ∧ s.gatherUnitAvailable = true then
    TaskType.Gather
  else if s.numberOfTraceUnits / 2 < s.doneTraceUnits.length ∧ s.availablePlotUnits ≠ [] then
    TaskType.Plot
  else if s.availableTraceUnits ≠ [] then
    TaskType.Trace
  else if s.availablePlotUnits ≠ [] ∧ s.doneTraceUnits ≠ [] then
    TaskType.Plot
  else if s.gatherUnitAvailable = true ∧ s.donePlotUnits ≠ [] then
    TaskType.Gather
  else
    TaskType.Sleep

/-- Number of in-flight tasks that occupy the gather unit (Gather and
Tonemap tasks). -/
def gatherTonemapCount (l : List Task) : Nat :=
  (l.filter (fun t => t.type == TaskType.Gather || t.type == TaskType.Tonemap)).length

/-- The trace units held by an in-flight task: a Trace task holds its
primary unit, a Plot task holds its input trace units. -/
def heldTraceUnits (t : Task) : List Nat :=
  match t.type with
  | TaskType.Trace => [t.unit]
  | TaskType.Plot => t.otherUnits
  | _ => []

/-- The plot units held by an in-flight task: a Plot task holds its
primary unit, a Gather task holds its input plot units. -/
def heldPlotUnits (t : Task) : List Nat :=
  match t.type with
  | TaskType.Plot => [t.unit]
  | TaskType.Gather => t.otherUnits
  | _ => []

/-- All trace units held by the in-flight tasks. -/
def inflightTraceUnits (l : List Task) : List Nat :=
  l.flatMap heldTraceUnits

/-- All plot units held by the in-flight tasks. -/
def inflightPlotUnits (l : List Task) : List Nat :=
  l.flatMap heldPlotUnits

/-- The gather-exclusion invariant: at most one Gather or Tonemap task
is in flight, and none while the gather unit reads available. -/
def GatherInv (sys : Sys) : Prop :=
  gatherTonemapCount sys.inflight ≤ 1 ∧
  (sys.sched.gatherUnitAvailable = true → gatherTonemapCount sys.inflight = 0)

/-- Conservation of units: the available, done and in-flight trace
units together are exactly `{0..T-1}`, each index once; likewise for
plot units. -/
def UnitConservation (sys : Sys) : Prop :=
  (sys.sched.availableTraceUnits ++ sys.sched.doneTraceUnits ++
    inflightTraceUnits sys.inflight).Perm (List.range sys.sched.numberOfTraceUnits) ∧
  (sys.sched.availablePlotUnits ++ sys.sched.donePlotUnits ++
    inflightPlotUnits sys.inflight).Perm (List.range sys.sched.numberOfPlotUnits)

/-- Iterate tonemap completions over a list of completion instants. -/
def tonemapRun (ns : List Nat) (s : SchedulerState) : SchedulerState :=
  ns.foldl (fun st n => completeTonemapTask n st) s

/-- The throughput samples produced by iterated tonemap completions at
the given instants. -/
def tonemapSamples (ns : List Nat) (s : SchedulerState) : List ℚ :=
  match ns with
  | [] => []
  | n :: rest => tonemapSample n s :: tonemapSamples rest (completeTonemapTask n s)

/-- A worker script for four threads (T = 12 trace units, P = 2 plot
units): twelve workers draw Trace tasks, then completions interleave so
that a Plot task is still in flight when a Gather task is dispatched,
and the Plot completes before the Gather does. -/
def gatherOverlapScript : List (Nat × Nat × Option Nat) :=
  List.replicate 12 (0, 0, none) ++
    [(0, 0, some 0), (0, 0, some 11), (0, 0, some 0), (0, 0, some 0), (0, 0, some 10)]

/-- The system state reached by `gatherOverlapScript`: a Gather task is
in flight while a completed Plot has already refilled `donePlotUnits`. -/
def gatherOverlapSys : Sys :=
  sysRun gatherOverlapScript (initSys 4 0)

/-- The in-flight Gather task of `gatherOverlapSys`. -/
def gatherOverlapTask : Task :=
  gatherOverlapSys.inflight.getD 10 ⟨TaskType.Sleep, 0, []⟩

/-- Concrete state whose next dispatch is a Tonemap (display refresh
due, image changed, both singletons available). -/
def exTonemapState : SchedulerState :=
  ⟨6, 1, [0, 1, 2, 3, 4, 5], [0], [], [], true, true, true, 0, 0, []⟩

/-- Concrete state matching the spec scenario: T = 6, no available
trace units, six done traces, one available plot unit. -/
def exPlotState : SchedulerState :=
  ⟨6, 1, [], [0], [0, 1, 2, 3, 4, 5], [], true, true, false, 0, 0, []⟩

/-- Concrete deadlocked state: nothing available, nothing done, both
singletons busy; the only possible dispatch is Sleep. -/
def exIdleState : SchedulerState :=
  ⟨6, 1, [], [], [], [], false, false, false, 0, 0, []⟩

/-- Concrete state whose performance window is full (512 samples) with
seven traces completed since the tonemap at instant 0. -/
def exFullWindowState : SchedulerState :=
  ⟨6, 1, [], [], [], [], true, true, false, 0, 7, List.replicate 512 1⟩

/-! ### Helper lemmas about the dispatch branches -/

theorem dispatchRest_cases (s : SchedulerState) :
    (dispatchRest s = createPlotTask s ∧ s.availablePlotUnits ≠ [] ∧ s.doneTraceUnits ≠ []) ∨
    (dispatchRest s = createTraceTask s ∧ s.availableTraceUnits ≠ []) ∨
    (dispatchRest s = createGatherTask s ∧ s.gatherUnitAvailable = true ∧
      s.donePlotUnits ≠ []) ∨
    dispatchRest s = createSleepTask s := by
  unfold dispatchRest
  split_ifs with h1 h2 h3 h4
  · refine Or.inl ⟨rfl, h1.2, ?_⟩
    intro hnil
    have := h1.1
    rw [hnil] at this
    simp at this
  · exact Or.inr (Or.inl ⟨rfl, h2⟩)
  · exact Or.inl ⟨rfl, h3.1, h3.2⟩
  · exact Or.inr (Or.inr (Or.inl ⟨rfl, h4.1, h4.2⟩))
  · exact Or.inr (Or.inr (Or.inr rfl))

theorem dispatch_cases (now : Nat) (s : SchedulerState) :
    (dispatch now s = createTonemapTask s ∧ s.gatherUnitAvailable = true ∧
      s.tonemapUnitAvailable = true) ∨
    (dispatch now s = createGatherTask s ∧ s.gatherUnitAvailable = true ∧
      s.donePlotUnits ≠ []) ∨
    (dispatch now s = createPlotTask s ∧ s.availablePlotUnits ≠ [] ∧
      s.doneTraceUnits ≠ []) ∨
    (dispatch now s = createTraceTask s ∧ s.availableTraceUnits ≠ []) ∨
    dispatch now s = createSleepTask s := by
  have lift : dispatch now s = dispatchRest s →
      (dispatch now s = createTonemapTask s ∧ s.gatherUnitAvailable = true ∧
        s.tonemapUnitAvailable = true) ∨
      (dispatch now s = createGatherTask s ∧ s.gatherUnitAvailable = true ∧
        s.donePlotUnits ≠ []) ∨
      (dispatch now s = createPlotTask s ∧ s.availablePlotUnits ≠ [] ∧
        s.doneTraceUnits ≠ []) ∨
      (dispatch now s = createTraceTask s ∧ s.availableTraceUnits ≠ []) ∨
      dispatch now s = createSleepTask s := by
    intro h
    rcases dispatchRest_cases s with ⟨he, h1, h2⟩ | ⟨he, h1⟩ | ⟨he, h1, h2⟩ | he
    · exact Or.inr (Or.inr (Or.inl ⟨h.trans he, h1, h2⟩))
    · exact Or.inr (Or.inr (Or.inr (Or.inl ⟨h.trans he, h1⟩)))
    · exact Or.inr (Or.inl ⟨h.trans he, h1, h2⟩)
    · exact Or.inr (Or.inr (Or.inr (Or.inr (h.trans he))))
  by_cases hE : tonemappingInterval < now - s.lastTonemapTime
  · by_cases hI : s.imageChanged = true
    · by_cases hGT : s.gatherUnitAvailable = true ∧ s.tonemapUnitAvailable = true
      · exact Or.inl ⟨by rw [dispatch]; simp [hE, hI, hGT], hGT.1, hGT.2⟩
      · exact lift (by rw [dispatch]; simp [hE, hI, hGT])
    · by_cases hGP : s.gatherUnitAvailable = true ∧ s.donePlotUnits ≠ []
      · exact Or.inr (Or.inl ⟨by rw [dispatch]; simp [hE, hI, hGP], hGP.1, hGP.2⟩)
      · exact lift (by rw [dispatch]; simp [hE, hI, hGP])
  · exact lift (by rw [dispatch]; simp [hE])

theorem perm_get_cons_eraseIdx :
    ∀ (l : List Task) (i : Nat) (h : i < l.length),
      l.Perm (l.get ⟨i, h⟩ :: l.eraseIdx i) := by
  intro l
  induction l with
  | nil => intro i h; simp at h
  | cons a tl ih =>
    intro i h
    cases i with
    | zero => simp [List.eraseIdx]
    | succ n =>
      have hn : n < tl.length := by simpa using h
      have step : (a :: tl).Perm (a :: (tl.get ⟨n, hn⟩ :: tl.eraseIdx n)) :=
        (ih n hn).cons a
      have swap : (a :: (tl.get ⟨n, hn⟩ :: tl.eraseIdx n)).Perm
          (tl.get ⟨n, hn⟩ :: (a :: tl.eraseIdx n)) := List.Perm.swap _ _ _
      simpa [List.eraseIdx] using step.trans swap

theorem gatherTonemapCount_append (l₁ l₂ : List Task) :
    gatherTonemapCount (l₁ ++ l₂) = gatherTonemapCount l₁ + gatherTonemapCount l₂ := by
  simp [gatherTonemapCount, List.filter_append]

theorem gatherTonemapCount_perm {l₁ l₂ : List Task} (h : l₁.Perm l₂) :
    gatherTonemapCount l₁ = gatherTonemapCount l₂ :=
  (h.filter _).length_eq

theorem completeTask_gatherUnitAvailable (t : Task) (now : Nat) (s : SchedulerState) :
    (completeTask t now s).gatherUnitAvailable =
      if t.type = TaskType.Gather ∨ t.type = TaskType.Tonemap then true
      else s.gatherUnitAvailable := by
  cases htt : t.type <;>
    simp [completeTask, htt, completeTraceTask, completePlotTask, completeGatherTask,
      completeTonemapTask]

theorem dispatch_gatherInv (now : Nat) (s : SchedulerState) (l : List Task)
    (h1 : gatherTonemapCount l ≤ 1)
    (h2 : s.gatherUnitAvailable = true → gatherTonemapCount l = 0) :
    gatherTonemapCount (l ++ [(dispatch now s).1]) ≤ 1 ∧
    ((dispatch now s).2.gatherUnitAvailable = true →
      gatherTonemapCount (l ++ [(dispatch now s).1]) = 0) := by
  rcases dispatch_cases now s with
    ⟨he, hg, ht⟩ | ⟨he, hg, hp⟩ | ⟨he, _, _⟩ | ⟨he, _⟩ | he <;> rw [he]
  · have h0 := h2 hg
    constructor
    · rw [gatherTonemapCount_append, h0]
      simp [gatherTonemapCount, createTonemapTask]
    · intro hga
      simp [createTonemapTask] at hga
  · have h0 := h2 hg
    constructor
    · rw [gatherTonemapCount_append, h0]
      simp [gatherTonemapCount, createGatherTask]
    · intro hga
      simp [createGatherTask] at hga
  · rw [gatherTonemapCount_append]
    have hz : gatherTonemapCount [(createPlotTask s).1] = 0 := by
      simp [gatherTonemapCount, createPlotTask]
    have hga : (createPlotTask s).2.gatherUnitAvailable = s.gatherUnitAvailable := by
      simp [createPlotTask]
    rw [hz, hga]
    exact ⟨by omega, fun hg => by rw [h2 hg]⟩
  · rw [gatherTonemapCount_append]
    have hz : gatherTonemapCount [(createTraceTask s).1] = 0 := by
      simp [gatherTonemapCount, createTraceTask]
    have hga : (createTraceTask s).2.gatherUnitAvailable = s.gatherUnitAvailable := by
      simp [createTraceTask]
    rw [hz, hga]
    exact ⟨by omega, fun hg => by rw [h2 hg]⟩
  · rw [gatherTonemapCount_append]
    have hz : gatherTonemapCount [(createSleepTask s).1] = 0 := by
      simp [gatherTonemapCount, createSleepTask]
    have hga : (createSleepTask s).2.gatherUnitAvailable = s.gatherUnitAvailable := by
      simp [createSleepTask]
    rw [hz, hga]
    exact ⟨by omega, fun hg => by rw [h2 hg]⟩

theorem sysStep_gatherInv (cmd : Nat × Nat × Option Nat) (sys : Sys)
    (h : GatherInv sys) : GatherInv (sysStep cmd sys) := by
  obtain ⟨nowC, nowD, c⟩ := cmd
  obtain ⟨h1, h2⟩ := h
  match c with
  | none =>
    have hcs : completeTask ⟨TaskType.Sleep, 0, []⟩ nowC sys.sched = sys.sched := rfl
    have hres := dispatch_gatherInv nowD sys.sched sys.inflight h1 h2
    simpa [sysStep, GatherInv, getNewTask, hcs] using hres
  | some i =>
    by_cases hi : i < sys.inflight.length
    · have hperm := perm_get_cons_eraseIdx sys.inflight i hi
      have hcnt : gatherTonemapCount sys.inflight =
          gatherTonemapCount [sys.inflight.get ⟨i, hi⟩] +
            gatherTonemapCount (sys.inflight.eraseIdx i) := by
        rw [gatherTonemapCount_perm hperm]
        simpa using gatherTonemapCount_append [sys.inflight.get ⟨i, hi⟩]
          (sys.inflight.eraseIdx i)
      set t := sys.inflight.get ⟨i, hi⟩ with hteq
      by_cases hgt : t.type = TaskType.Gather ∨ t.type = TaskType.Tonemap
      · have hone : gatherTonemapCount [t] = 1 := by
          rcases hgt with h | h <;> simp [gatherTonemapCount, h]
        have hzero : gatherTonemapCount (sys.inflight.eraseIdx i) = 0 := by omega
        have hga : (completeTask t nowC sys.sched).gatherUnitAvailable = true := by
          rw [completeTask_gatherUnitAvailable]
          simp [hgt]
        have hres := dispatch_gatherInv nowD (completeTask t nowC sys.sched)
          (sys.inflight.eraseIdx i) (by omega) (fun _ => hzero)
        simp only [sysStep, hi, dif_pos, GatherInv, getNewTask]
        exact hres
      · have hzero : gatherTonemapCount [t] = 0 := by
          cases htt : t.type <;> simp_all [gatherTonemapCount]
        have hcnt2 : gatherTonemapCount (sys.inflight.eraseIdx i) =
            gatherTonemapCount sys.inflight := by omega
        have hga : (completeTask t nowC sys.sched).gatherUnitAvailable =
            sys.sched.gatherUnitAvailable := by
          rw [completeTask_gatherUnitAvailable]
          simp [hgt]
        have hres := dispatch_gatherInv nowD (completeTask t nowC sys.sched)
          (sys.inflight.eraseIdx i) (by omega)
          (fun hg => by rw [hcnt2, h2 (by rw [← hga]; exact hg)])
        simp only [sysStep, hi, dif_pos, GatherInv, getNewTask]
        exact hres
    · simpa [sysStep, hi, GatherInv] using And.intro h1 h2

theorem sysRun_gatherInv :
    ∀ (script : List (Nat × Nat × Option Nat)) (sys : Sys),
      GatherInv sys → GatherInv (sysRun script sys) := by
  intro script
  induction script with
  | nil => intro sys h; exact h
  | cons c rest ih =>
    intro sys h
    exact ih _ (sysStep_gatherInv c sys h)

theorem completeTask_traceUnits (t : Task) (now : Nat) (s : SchedulerState) :
    ((completeTask t now s).availableTraceUnits : Multiset Nat) +
      ((completeTask t now s).doneTraceUnits : Multiset Nat) =
    (s.availableTraceUnits : Multiset Nat) + (s.doneTraceUnits : Multiset Nat) +
      (heldTraceUnits t : Multiset Nat) := by
  cases htt : t.type <;>
    simp [completeTask, htt, completeTraceTask, completePlotTask, completeGatherTask,
      completeTonemapTask, heldTraceUnits, ← Multiset.coe_add, Multiset.coe_reverse] <;>
    abel

theorem completeTask_plotUnits (t : Task) (now : Nat) (s : SchedulerState) :
    ((completeTask t now s).availablePlotUnits : Multiset Nat) +
      ((completeTask t now s).donePlotUnits : Multiset Nat) =
    (s.availablePlotUnits : Multiset Nat) + (s.donePlotUnits : Multiset Nat) +
      (heldPlotUnits t : Multiset Nat) := by
  cases htt : t.type <;>
    simp [completeTask, htt, completeTraceTask, completePlotTask, completeGatherTask,
      completeTonemapTask, heldPlotUnits, ← Multiset.coe_add, Multiset.coe_reverse] <;>
    abel

theorem dispatch_traceUnits (now : Nat) (s : SchedulerState) :
    ((dispatch now s).2.availableTraceUnits : Multiset Nat) +
      ((dispatch now s).2.doneTraceUnits : Multiset Nat) +
      (heldTraceUnits (dispatch now s).1 : Multiset Nat) =
    (s.availableTraceUnits : Multiset Nat) + (s.doneTraceUnits : Multiset Nat) := by
  rcases dispatch_cases now s with
    ⟨he, _, _⟩ | ⟨he, _, _⟩ | ⟨he, hp, hd⟩ | ⟨he, ha⟩ | he <;> rw [he]
  · simp [createTonemapTask, heldTraceUnits]
  · simp [createGatherTask, heldTraceUnits]
  · simp only [createPlotTask, heldTraceUnits]
    calc ((s.availableTraceUnits : Multiset Nat) +
          (s.doneTraceUnits.drop (min s.doneTraceUnits.length
            (max 1 (s.doneTraceUnits.length / 2))) : Multiset Nat)) +
          (s.doneTraceUnits.take (min s.doneTraceUnits.length
            (max 1 (s.doneTraceUnits.length / 2))) : Multiset Nat)
        = (s.availableTraceUnits : Multiset Nat) +
          ((s.doneTraceUnits.take (min s.doneTraceUnits.length
            (max 1 (s.doneTraceUnits.length / 2))) : Multiset Nat) +
           (s.doneTraceUnits.drop (min s.doneTraceUnits.length
            (max 1 (s.doneTraceUnits.length / 2))) : Multiset Nat)) := by abel
      _ = (s.availableTraceUnits : Multiset Nat) + (s.doneTraceUnits : Multiset Nat) := by
          rw [Multiset.coe_add, List.take_append_drop]
  · cases hav : s.availableTraceUnits with
    | nil => exact absurd hav ha
    | cons a l =>
      simp only [createTraceTask, heldTraceUnits, hav, List.headD, List.tail]
      rw [Multiset.coe_add, Multiset.coe_add, Multiset.coe_add, Multiset.coe_eq_coe]
      exact List.perm_append_comm
  · simp [createSleepTask, heldTraceUnits]

theorem dispatch_plotUnits (now : Nat) (s : SchedulerState) :
    ((dispatch now s).2.availablePlotUnits : Multiset Nat) +
      ((dispatch now s).2.donePlotUnits : Multiset Nat) +
      (heldPlotUnits (dispatch now s).1 : Multiset Nat) =
    (s.availablePlotUnits : Multiset Nat) + (s.donePlotUnits : Multiset Nat) := by
  rcases dispatch_cases now s with
    ⟨he, _, _⟩ | ⟨he, _, _⟩ | ⟨he, hp, hd⟩ | ⟨he, ha⟩ | he <;> rw [he]
  · simp [createTonemapTask, heldPlotUnits]
  · simp [createGatherTask, heldPlotUnits]
  · cases hap : s.availablePlotUnits with
    | nil => exact absurd hap hp
    | cons a l =>
      simp only [createPlotTask, heldPlotUnits, hap, List.headD, List.tail]
      rw [Multiset.coe_add, Multiset.coe_add, Multiset.coe_add, Multiset.coe_eq_coe]
      exact List.perm_append_comm
  · simp [createTraceTask, heldPlotUnits]
  · simp [createSleepTask, heldPlotUnits]

theorem completeTask_numbers (t : Task) (now : Nat) (s : SchedulerState) :
    (completeTask t now s).numberOfTraceUnits = s.numberOfTraceUnits ∧
    (completeTask t now s).numberOfPlotUnits = s.numberOfPlotUnits := by
  cases htt : t.type <;>
    simp [completeTask, htt, completeTraceTask, completePlotTask, completeGatherTask,
      completeTonemapTask]

theorem dispatch_numbers (now : Nat) (s : SchedulerState) :
    (dispatch now s).2.numberOfTraceUnits = s.numberOfTraceUnits ∧
    (dispatch now s).2.numberOfPlotUnits = s.numberOfPlotUnits := by
  rcases dispatch_cases now s with
    ⟨he, _, _⟩ | ⟨he, _, _⟩ | ⟨he, _, _⟩ | ⟨he, _⟩ | he <;> rw [he] <;>
    simp [createTonemapTask, createGatherTask, createPlotTask, createTraceTask,
      createSleepTask]

theorem getNewTask_traceUnits (t : Task) (nowC nowD : Nat) (s : SchedulerState)
    (rest : List Task) :
    ((getNewTask t nowC nowD s).2.availableTraceUnits : Multiset Nat) +
      ((getNewTask t nowC nowD s).2.doneTraceUnits : Multiset Nat) +
      (inflightTraceUnits (rest ++ [(getNewTask t nowC nowD s).1]) : Multiset Nat) =
    (s.availableTraceUnits : Multiset Nat) + (s.doneTraceUnits : Multiset Nat) +
      (inflightTraceUnits rest : Multiset Nat) + (heldTraceUnits t : Multiset Nat) := by
  have hc := completeTask_traceUnits t nowC s
  have hd := dispatch_traceUnits nowD (completeTask t nowC s)
  have hflat : inflightTraceUnits (rest ++ [(getNewTask t nowC nowD s).1]) =
      inflightTraceUnits rest ++ heldTraceUnits (getNewTask t nowC nowD s).1 := by
    simp [inflightTraceUnits, List.flatMap_append]
  simp only [getNewTask] at *
  rw [hflat, ← Multiset.coe_add]
  calc ((dispatch nowD (completeTask t nowC s)).2.availableTraceUnits : Multiset Nat) +
        ((dispatch nowD (completeTask t nowC s)).2.doneTraceUnits : Multiset Nat) +
        ((inflightTraceUnits rest : Multiset Nat) +
          (heldTraceUnits (dispatch nowD (completeTask t nowC s)).1 : Multiset Nat))
      = (((dispatch nowD (completeTask t nowC s)).2.availableTraceUnits : Multiset Nat) +
          ((dispatch nowD (completeTask t nowC s)).2.doneTraceUnits : Multiset Nat) +
          (heldTraceUnits (dispatch nowD (completeTask t nowC s)).1 : Multiset Nat)) +
        (inflightTraceUnits rest : Multiset Nat) := by abel
    _ = (((completeTask t nowC s).availableTraceUnits : Multiset Nat) +
          ((completeTask t nowC s).doneTraceUnits : Multiset Nat)) +
        (inflightTraceUnits rest : Multiset Nat) := by rw [hd]
    _ = ((s.availableTraceUnits : Multiset Nat) + (s.doneTraceUnits : Multiset Nat) +
          (heldTraceUnits t : Multiset Nat)) +
        (inflightTraceUnits rest : Multiset Nat) := by rw [hc]
    _ = (s.availableTraceUnits : Multiset Nat) + (s.doneTraceUnits : Multiset Nat) +
          (inflightTraceUnits rest : Multiset Nat) + (heldTraceUnits t : Multiset Nat) := by
        abel

theorem getNewTask_plotUnits (t : Task) (nowC nowD : Nat) (s : SchedulerState)
    (rest : List Task) :
    ((getNewTask t nowC nowD s).2.availablePlotUnits : Multiset Nat) +
      ((getNewTask t nowC nowD s).2.donePlotUnits : Multiset Nat) +
      (inflightPlotUnits (rest ++ [(getNewTask t nowC nowD s).1]) : Multiset Nat) =
    (s.availablePlotUnits : Multiset Nat) + (s.donePlotUnits : Multiset Nat) +
      (inflightPlotUnits rest : Multiset Nat) + (heldPlotUnits t : Multiset Nat) := by
  have hc := completeTask_plotUnits t nowC s
  have hd := dispatch_plotUnits nowD (completeTask t nowC s)
  have hflat : inflightPlotUnits (rest ++ [(getNewTask t nowC nowD s).1]) =
      inflightPlotUnits rest ++ heldPlotUnits (getNewTask t nowC nowD s).1 := by
    simp [inflightPlotUnits, List.flatMap_append]
  simp only [getNewTask] at *
  rw [hflat, ← Multiset.coe_add]
  calc ((dispatch nowD (completeTask t nowC s)).2.availablePlotUnits : Multiset Nat) +
        ((dispatch nowD (completeTask t nowC s)).2.donePlotUnits : Multiset Nat) +
        ((inflightPlotUnits rest : Multiset Nat) +
          (heldPlotUnits (dispatch nowD (completeTask t nowC s)).1 : Multiset Nat))
      = (((dispatch nowD (completeTask t nowC s)).2.availablePlotUnits : Multiset Nat) +
          ((dispatch nowD (completeTask t nowC s)).2.donePlotUnits : Multiset Nat) +
          (heldPlotUnits (dispatch nowD (completeTask t nowC s)).1 : Multiset Nat)) +
        (inflightPlotUnits rest : Multiset Nat) := by abel
    _ = (((completeTask t nowC s).availablePlotUnits : Multiset Nat) +
          ((completeTask t nowC s).donePlotUnits : Multiset Nat)) +
        (inflightPlotUnits rest : Multiset Nat) := by rw [hd]
    _ = ((s.availablePlotUnits : Multiset Nat) + (s.donePlotUnits : Multiset Nat) +
          (heldPlotUnits t : Multiset Nat)) +
        (inflightPlotUnits rest : Multiset Nat) := by rw [hc]
    _ = (s.availablePlotUnits : Multiset Nat) + (s.donePlotUnits : Multiset Nat) +
          (inflightPlotUnits rest : Multiset Nat) + (heldPlotUnits t : Multiset Nat) := by
        abel

theorem step_conservation_core (t : Task) (nowC nowD : Nat) (s : SchedulerState)
    (rest : List Task)
    (h1 : (s.availableTraceUnits : Multiset Nat) + (s.doneTraceUnits : Multiset Nat) +
      (inflightTraceUnits rest : Multiset Nat) + (heldTraceUnits t : Multiset Nat) =
      (List.range s.numberOfTraceUnits : Multiset Nat))
    (h2 : (s.availablePlotUnits : Multiset Nat) + (s.donePlotUnits : Multiset Nat) +
      (inflightPlotUnits rest : Multiset Nat) + (heldPlotUnits t : Multiset Nat) =
      (List.range s.numberOfPlotUnits : Multiset Nat)) :
    UnitConservation ⟨(getNewTask t nowC nowD s).2, rest ++ [(getNewTask t nowC nowD s).1]⟩ := by
  constructor
  · show ((getNewTask t nowC nowD s).2.availableTraceUnits ++
      (getNewTask t nowC nowD s).2.doneTraceUnits ++
      inflightTraceUnits (rest ++ [(getNewTask t nowC nowD s).1])).Perm
      (List.range (getNewTask t nowC nowD s).2.numberOfTraceUnits)
    have hn : (getNewTask t nowC nowD s).2.numberOfTraceUnits = s.numberOfTraceUnits := by
      simp only [getNewTask]
      rw [(dispatch_numbers _ _).1, (completeTask_numbers _ _ _).1]
    rw [← Multiset.coe_eq_coe, ← Multiset.coe_add, ← Multiset.coe_add, hn,
      getNewTask_traceUnits t nowC nowD s rest, h1]
  · show ((getNewTask t nowC nowD s).2.availablePlotUnits ++
      (getNewTask t nowC nowD s).2.donePlotUnits ++
      inflightPlotUnits (rest ++ [(getNewTask t nowC nowD s).1])).Perm
      (List.range (getNewTask t nowC nowD s).2.numberOfPlotUnits)
    have hn : (getNewTask t nowC nowD s).2.numberOfPlotUnits = s.numberOfPlotUnits := by
      simp only [getNewTask]
      rw [(dispatch_numbers _ _).2, (completeTask_numbers _ _ _).2]
    rw [← Multiset.coe_eq_coe, ← Multiset.coe_add, ← Multiset.coe_add, hn,
      getNewTask_plotUnits t nowC nowD s rest, h2]

theorem sysStep_conservation (cmd : Nat × Nat × Option Nat) (sys : Sys)
    (h : UnitConservation sys) : UnitConservation (sysStep cmd sys) := by
  obtain ⟨nowC, nowD, c⟩ := cmd
  obtain ⟨h1, h2⟩ := h
  rw [← Multiset.coe_eq_coe, ← Multiset.coe_add, ← Multiset.coe_add] at h1 h2
  match c with
  | none =>
    have hcore := step_conservation_core ⟨TaskType.Sleep, 0, []⟩ nowC nowD sys.sched
      sys.inflight
      (by simpa [heldTraceUnits] using h1)
      (by simpa [heldPlotUnits] using h2)
    simpa [sysStep, UnitConservation] using hcore
  | some i =>
    by_cases hi : i < sys.inflight.length
    · set t := sys.inflight.get ⟨i, hi⟩ with hteq
      have hpermT : (inflightTraceUnits sys.inflight : Multiset Nat) =
          (heldTraceUnits t : Multiset Nat) +
            (inflightTraceUnits (sys.inflight.eraseIdx i) : Multiset Nat) := by
        rw [Multiset.coe_add, Multiset.coe_eq_coe]
        have hp := (perm_get_cons_eraseIdx sys.inflight i hi).flatMap_right heldTraceUnits
        simpa [inflightTraceUnits, heldTraceUnits] using hp
      have hpermP : (inflightPlotUnits sys.inflight : Multiset Nat) =
          (heldPlotUnits t : Multiset Nat) +
            (inflightPlotUnits (sys.inflight.eraseIdx i) : Multiset Nat) := by
        rw [Multiset.coe_add, Multiset.coe_eq_coe]
        have hp := (perm_get_cons_eraseIdx sys.inflight i hi).flatMap_right heldPlotUnits
        simpa [inflightPlotUnits, heldPlotUnits] using hp
      have hcore := step_conservation_core t nowC nowD sys.sched
        (sys.inflight.eraseIdx i)
        (by rw [← h1, hpermT]; abel)
        (by rw [← h2, hpermP]; abel)
      simp only [sysStep, hi, dif_pos]
      exact hcore
    · have hinv : UnitConservation sys := by
        constructor <;> rw [← Multiset.coe_eq_coe, ← Multiset.coe_add, ← Multiset.coe_add]
        · exact h1
        · exact h2
      simpa [sysStep, hi] using hinv

theorem sysRun_conservation :
    ∀ (script : List (Nat × Nat × Option Nat)) (sys : Sys),
      UnitConservation sys → UnitConservation (sysRun script sys) := by
  intro script
  induction script with
  | nil => intro sys h; exact h
  | cons c rest ih =>
    intro sys h
    exact ih _ (sysStep_conservation c sys h)

theorem pushPerformance_length (x : ℚ) (w : List ℚ) (h : w.length ≤ 512) :
    (pushPerformance x w).length ≤ 512 := by
  unfold pushPerformance
  split_ifs with hf
  · simp at hf ⊢
    omega
  · simp at hf ⊢
    omega

theorem pushPerformance_full (x : ℚ) (w : List ℚ) (h : w.length = 512) :
    pushPerformance x w = w.tail ++ [x] := by
  unfold pushPerformance
  rw [if_pos (by simp; omega)]
  cases w with
  | nil => simp at h
  | cons a l => simp

theorem completeTask_perfLen (t : Task) (now : Nat) (s : SchedulerState)
    (h : s.performance.length ≤ 512) :
    (completeTask t now s).performance.length ≤ 512 := by
  cases htt : t.type <;>
    simp [completeTask, htt, completeTraceTask, completePlotTask, completeGatherTask,
      completeTonemapTask]
  · exact h
  · exact h
  · exact h
  · exact pushPerformance_length _ _ h
  · exact h

theorem dispatch_performance (now : Nat) (s : SchedulerState) :
    (dispatch now s).2.performance = s.performance := by
  rcases dispatch_cases now s with
    ⟨he, _, _⟩ | ⟨he, _, _⟩ | ⟨he, _, _⟩ | ⟨he, _⟩ | he <;> rw [he] <;>
    simp [createTonemapTask, createGatherTask, createPlotTask, createTraceTask,
      createSleepTask]

theorem sysStep_perfLen (cmd : Nat × Nat × Option Nat) (sys : Sys)
    (h : sys.sched.performance.length ≤ 512) :
    (sysStep cmd sys).sched.performance.length ≤ 512 := by
  obtain ⟨nowC, nowD, c⟩ := cmd
  match c with
  | none =>
    have : (sysStep (nowC, nowD, none) sys).sched.performance =
        (completeTask ⟨TaskType.Sleep, 0, []⟩ nowC sys.sched).performance := by
      simp [sysStep, getNewTask, dispatch_performance]
    rw [this]
    exact completeTask_perfLen _ _ _ h
  | some i =>
    by_cases hi : i < sys.inflight.length
    · have : (sysStep (nowC, nowD, some i) sys).sched.performance =
          (completeTask (sys.inflight.get ⟨i, hi⟩) nowC sys.sched).performance := by
        simp [sysStep, hi, getNewTask, dispatch_performance]
      rw [this]
      exact completeTask_perfLen _ _ _ h
    · simpa [sysStep, hi] using h

theorem sysRun_perfLen :
    ∀ (script : List (Nat × Nat × Option Nat)) (sys : Sys),
      sys.sched.performance.length ≤ 512 →
      (sysRun script sys).sched.performance.length ≤ 512 := by
  intro script
  induction script with
  | nil => intro sys h; exact h
  | cons c rest ih =>
    intro sys h
    exact ih _ (sysStep_perfLen c sys h)

theorem tonemapRun_performance :
    ∀ (ns : List Nat) (s : SchedulerState), s.performance.length ≤ 512 →
      (tonemapRun ns s).performance =
        (s.performance ++ tonemapSamples ns s).drop
          (s.performance.length + ns.length - 512) := by
  intro ns
  induction ns with
  | nil =>
    intro s h
    have hz : s.performance.length - 512 = 0 := by omega
    simp [tonemapRun, tonemapSamples, hz]
  | cons n rest ih =>
    intro s h
    have hstep : tonemapRun (n :: rest) s = tonemapRun rest (completeTonemapTask n s) := by
      simp [tonemapRun]
    have hlen : (completeTonemapTask n s).performance.length ≤ 512 :=
      completeTask_perfLen ⟨TaskType.Tonemap, 0, []⟩ n s h
    rw [hstep, ih _ hlen]
    have hsam : tonemapSamples (n :: rest) s =
        tonemapSample n s :: tonemapSamples rest (completeTonemapTask n s) := rfl
    by_cases hfull : 512 < s.performance.length + 1
    · have hw : s.performance.length = 512 := by omega
      have hpp : (completeTonemapTask n s).performance =
          s.performance.tail ++ [tonemapSample n s] := by
        simp only [completeTonemapTask]
        exact pushPerformance_full _ _ hw
      cases hwc : s.performance with
      | nil => rw [hwc] at hw; simp at hw
      | cons a l =>
        have hl : l.length = 511 := by rw [hwc] at hw; simpa using hw
        rw [hsam, hpp, hwc]
        simp only [List.tail_cons]
        rw [show (l ++ [tonemapSample n s]).length + rest.length - 512 = rest.length by
          simp [hl]]
        rw [show (a :: l).length + (n :: rest).length - 512 = rest.length + 1 by
          simp [hl]]
        rw [List.append_assoc, List.singleton_append, List.cons_append,
          List.drop_succ_cons]
    · have hpp : (completeTonemapTask n s).performance =
          s.performance ++ [tonemapSample n s] := by
        simp only [completeTonemapTask, pushPerformance]
        rw [if_neg (by simp; omega)]
      have hidx : (s.performance ++ [tonemapSample n s]).length + rest.length - 512 =
          s.performance.length + (n :: rest).length - 512 := by
        simp
        omega
      rw [hsam, hpp, List.append_assoc, List.singleton_append, hidx]

theorem getLast?_pushPerformance (x : ℚ) (w : List ℚ) :
    (pushPerformance x w).getLast? = some x := by
  unfold pushPerformance
  split_ifs with h
  · cases w with
    | nil => simp at h
    | cons a l => simp
  · simp

/-! ### Claim theorems -/

/-- C1: after applying the completion of the passed-in task, `GetNewTask`
selects the returned task by the ordered six-branch policy of spec
section 4.2, as a pure function of the post-completion scheduler state:
for every state exactly the first matching branch determines the
returned task's kind. -/
theorem getNewTask_ordered_policy (completedTask : Task) (nowC nowD : Nat)
    (s : SchedulerState) :
    (getNewTask completedTask nowC nowD s).1.type =
      specPolicyKind nowD (completeTask completedTask nowC s) := by
  have h : ∀ (now : Nat) (st : SchedulerState),
      (dispatch now st).1.type = specPolicyKind now st := by
    intro now st
    unfold dispatch dispatchRest specPolicyKind
    split_ifs <;>
      simp_all [createTonemapTask, createGatherTask, createPlotTask, createTraceTask,
        createSleepTask]
  exact h nowD (completeTask completedTask nowC s)

/-- C5: immediately after any Tonemap completion, both singletons are
available, the image is unchanged, the trace counter is reset, the
timestamp is refreshed, exactly one throughput sample
`completedTraces * 1000 / Δms` is appended to the performance window,
and no queue is touched. -/
theorem tonemap_completion_state (now : Nat) (s : SchedulerState) :
    (completeTonemapTask now s).gatherUnitAvailable = true ∧
    (completeTonemapTask now s).tonemapUnitAvailable = true ∧
    (completeTonemapTask now s).imageChanged = false ∧
    (completeTonemapTask now s).completedTraces = 0 ∧
    (completeTonemapTask now s).lastTonemapTime = now ∧
    (completeTonemapTask now s).performance =
      pushPerformance
        ((s.completedTraces * 1000 : ℚ) / ((now - s.lastTonemapTime : Nat) : ℚ))
        s.performance ∧
    (completeTonemapTask now s).performance.getLast? =
      some ((s.completedTraces * 1000 : ℚ) / ((now - s.lastTonemapTime : Nat) : ℚ)) ∧
    (completeTonemapTask now s).availableTraceUnits = s.availableTraceUnits ∧
    (completeTonemapTask now s).doneTraceUnits = s.doneTraceUnits ∧
    (completeTonemapTask now s).availablePlotUnits = s.availablePlotUnits ∧
    (completeTonemapTask now s).donePlotUnits = s.donePlotUnits := by
  refine ⟨rfl, rfl, rfl, rfl, rfl, rfl, ?_, rfl, rfl, rfl, rfl⟩
  exact getLast?_pushPerformance _ _

/-- C6: every dispatched Plot task takes its primary unit from the head
of the available-plot queue and consumes exactly
`max 1 (|doneTrace| / 2)` trace units, popped oldest-first from the
done-trace queue. -/
theorem plot_dispatch_consumes (now : Nat) (s : SchedulerState)
    (h : (dispatch now s).1.type = TaskType.Plot) :
    s.availablePlotUnits.head? = some (dispatch now s).1.unit ∧
    (dispatch now s).2.availablePlotUnits = s.availablePlotUnits.tail ∧
    (dispatch now s).1.otherUnits =
      s.doneTraceUnits.take (max 1 (s.doneTraceUnits.length / 2)) ∧
    (dispatch now s).2.doneTraceUnits =
      s.doneTraceUnits.drop (max 1 (s.doneTraceUnits.length / 2)) := by
  rcases dispatch_cases now s with ⟨he, _, _⟩ | ⟨he, _, _⟩ | ⟨he, hp, hd⟩ | ⟨he, _⟩ | he <;>
    rw [he] at h ⊢
  · simp [createTonemapTask] at h
  · simp [createGatherTask] at h
  · have hlen : 0 < s.doneTraceUnits.length := List.length_pos.mpr hd
    have hmin :
        min s.doneTraceUnits.length (max 1 (s.doneTraceUnits.length / 2)) =
          max 1 (s.doneTraceUnits.length / 2) := by omega
    cases hap : s.availablePlotUnits with
    | nil => exact absurd hap hp
    | cons a l =>
      refine ⟨?_, ?_, ?_, ?_⟩ <;> simp [createPlotTask, hmin, hap]
  · simp [createTraceTask] at h
  · simp [createSleepTask] at h

/-- C6 witness: in the spec's concrete scenario (T = 6, no available
traces, `doneTrace = [0,1,2,3,4,5]`, one available plot unit) the
dispatched Plot takes plot unit 0 and traces `[0,1,2]`, leaving
`doneTrace = [3,4,5]`. -/
theorem plot_dispatch_consumes_witness :
    exPlotState.availablePlotUnits.head? = some (dispatch 0 exPlotState).1.unit ∧
    (dispatch 0 exPlotState).2.availablePlotUnits = [] ∧
    (dispatch 0 exPlotState).1.otherUnits = [0, 1, 2] ∧
    (dispatch 0 exPlotState).2.doneTraceUnits = [3, 4, 5] :=
  plot_dispatch_consumes 0 exPlotState (by decide)

/-- C7 counterexample: completing a Trace task whose unit index 999 is
out of range (T = 6) and not in flight does not abort: it silently
pushes 999 onto the done-trace queue of the initial state. -/
theorem complete_out_of_range_silent :
    (completeTask ⟨TaskType.Trace, 999, []⟩ 0 (initState 2 0)).doneTraceUnits = [999] ∧
    completeTask ⟨TaskType.Trace, 999, []⟩ 0 (initState 2 0) ≠ initState 2 0 :=
  ⟨by decide, by decide⟩

/-- C7 amended: completing a task referring to any unit index, in range
or not, performs no validation: the index is enqueued exactly as for a
legitimate completion (Trace units onto `doneTraceUnits`, Plot units
onto `donePlotUnits`), and the process is never aborted. -/
theorem complete_no_validation (t : Task) (now : Nat) (s : SchedulerState) :
    (t.type = TaskType.Trace →
      completeTask t now s =
        { s with
          doneTraceUnits := s.doneTraceUnits ++ [t.unit]
          completedTraces := s.completedTraces + 1 }) ∧
    (t.type = TaskType.Plot →
      completeTask t now s =
        { s with
          availableTraceUnits := s.availableTraceUnits ++ t.otherUnits.reverse
          donePlotUnits := s.donePlotUnits ++ [t.unit] }) := by
  constructor <;> intro ht <;>
    simp [completeTask, ht, completeTraceTask, completePlotTask]

/-- C7 amended witness: an out-of-range Trace completion and an
out-of-range Plot completion both silently update the initial state. -/
theorem complete_no_validation_witness :
    completeTask ⟨TaskType.Trace, 999, []⟩ 0 (initState 2 0) =
      { initState 2 0 with
        doneTraceUnits := [999]
        completedTraces := 1 } ∧
    completeTask ⟨TaskType.Plot, 999, [7]⟩ 0 (initState 2 0) =
      { initState 2 0 with
        availableTraceUnits := [0, 1, 2, 3, 4, 5, 7]
        donePlotUnits := [999] } :=
  ⟨(complete_no_validation ⟨TaskType.Trace, 999, []⟩ 0 (initState 2 0)).1 rfl,
   (complete_no_validation ⟨TaskType.Plot, 999, [7]⟩ 0 (initState 2 0)).2 rfl⟩

/-- C9: Sleep is an identity on scheduler state: completing a Sleep task
(including the sentinel of the very first call) changes nothing,
dispatching a Sleep task changes nothing, and a `GetNewTask` call that
completes a Sleep and returns a Sleep leaves the state bitwise equal. -/
theorem sleep_identity (t : Task) (nowC nowD : Nat) (s : SchedulerState)
    (ht : t.type = TaskType.Sleep) :
    completeTask t nowC s = s ∧
    ((dispatch nowD s).1.type = TaskType.Sleep → (dispatch nowD s).2 = s) ∧
    ((getNewTask t nowC nowD s).1.type = TaskType.Sleep →
      (getNewTask t nowC nowD s).2 = s) := by
  have hc : completeTask t nowC s = s := by simp [completeTask, ht]
  have hd : ∀ (now : Nat) (st : SchedulerState),
      (dispatch now st).1.type = TaskType.Sleep → (dispatch now st).2 = st := by
    intro now st hres
    rcases dispatch_cases now st with ⟨he, _, _⟩ | ⟨he, _, _⟩ | ⟨he, _, _⟩ | ⟨he, _⟩ | he <;>
      rw [he] at hres ⊢
    · simp [createTonemapTask] at hres
    · simp [createGatherTask] at hres
    · simp [createPlotTask] at hres
    · simp [createTraceTask] at hres
    · rfl
  refine ⟨hc, hd nowD s, ?_⟩
  unfold getNewTask
  rw [hc]
  exact hd nowD s

/-- C9 witness: in a fully locked state the `GetNewTask` call with the
sentinel Sleep completion returns Sleep and leaves the state equal. -/
theorem sleep_identity_witness :
    completeTask ⟨TaskType.Sleep, 0, []⟩ 0 exIdleState = exIdleState ∧
    (dispatch 0 exIdleState).2 = exIdleState :=
  ⟨(sleep_identity ⟨TaskType.Sleep, 0, []⟩ 0 0 exIdleState rfl).1,
   (sleep_identity ⟨TaskType.Sleep, 0, []⟩ 0 0 exIdleState rfl).2.1 (by decide)⟩

/-- C10: on Plot completion the input trace units return to the
available-trace queue in reverse order of the task's input list, and on
Gather completion the input plot units return to the available-plot
queue in reverse order; with an empty available queue the next unit
dispatched is therefore the last-listed input. -/
theorem completion_returns_inputs_reversed (t : Task) (now : Nat) (s : SchedulerState) :
    (t.type = TaskType.Plot →
      (completeTask t now s).availableTraceUnits =
        s.availableTraceUnits ++ t.otherUnits.reverse ∧
      (completeTask t now s).donePlotUnits = s.donePlotUnits ++ [t.unit]) ∧
    (t.type = TaskType.Gather →
      (completeTask t now s).availablePlotUnits =
        s.availablePlotUnits ++ t.otherUnits.reverse) ∧
    (t.type = TaskType.Plot → s.availableTraceUnits = [] →
      (completeTask t now s).availableTraceUnits.head? = t.otherUnits.getLast?) := by
  refine ⟨fun ht => ?_, fun ht => ?_, fun ht hav => ?_⟩
  · simp [completeTask, ht, completePlotTask]
  · simp [completeTask, ht, completeGatherTask]
  · simp [completeTask, ht, completePlotTask, hav]

/-- C10 witness: completing a Plot over traces `[5, 6]` from an empty
available-trace queue enqueues `6` then `5`, so the head is `6`. -/
theorem completion_returns_inputs_reversed_witness :
    (completeTask ⟨TaskType.Plot, 0, [5, 6]⟩ 0 exIdleState).availableTraceUnits =
      [6, 5] ∧
    (completeTask ⟨TaskType.Plot, 0, [5, 6]⟩ 0 exIdleState).donePlotUnits = [0] ∧
    (completeTask ⟨TaskType.Gather, 0, [1, 2]⟩ 0 exIdleState).availablePlotUnits =
      [2, 1] ∧
    (completeTask ⟨TaskType.Plot, 0, [5, 6]⟩ 0 exIdleState).availableTraceUnits.head? =
      some 6 :=
  ⟨((completion_returns_inputs_reversed ⟨TaskType.Plot, 0, [5, 6]⟩ 0 exIdleState).1 rfl).1,
   ((completion_returns_inputs_reversed ⟨TaskType.Plot, 0, [5, 6]⟩ 0 exIdleState).1 rfl).2,
   (completion_returns_inputs_reversed ⟨TaskType.Gather, 0, [1, 2]⟩ 0 exIdleState).2.1 rfl,
   (completion_returns_inputs_reversed ⟨TaskType.Plot, 0, [5, 6]⟩ 0 exIdleState).2.2 rfl rfl⟩

/-- C2: a Tonemap task is only ever dispatched when both
`gatherAvailable` and `tonemapAvailable` hold in the post-completion
state, and in every reachable system state at most one Gather or
Tonemap task is in flight — a tonemap and a gather (or two tonemaps)
are never simultaneously in flight. -/
theorem tonemap_dispatch_mutex :
    (∀ (now : Nat) (s : SchedulerState),
      (dispatch now s).1.type = TaskType.Tonemap →
        s.gatherUnitAvailable = true ∧ s.tonemapUnitAvailable = true) ∧
    (∀ (n t0 : Nat) (sys : Sys), Reachable n t0 sys →
      gatherTonemapCount sys.inflight ≤ 1 ∧
      (sys.sched.gatherUnitAvailable = true → gatherTonemapCount sys.inflight = 0)) := by
  constructor
  · intro now s h
    rcases dispatch_cases now s with
      ⟨he, hg, ht⟩ | ⟨he, _, _⟩ | ⟨he, _, _⟩ | ⟨he, _⟩ | he <;> rw [he] at h
    · exact ⟨hg, ht⟩
    · simp [createGatherTask] at h
    · simp [createPlotTask] at h
    · simp [createTraceTask] at h
    · simp [createSleepTask] at h
  · rintro n t0 sys ⟨script, rfl⟩
    have hinit : GatherInv (initSys n t0) := by
      constructor <;> simp [gatherTonemapCount, initSys]
    exact sysRun_gatherInv script _ hinit

/-- C2 witness: from a state whose dispatch is a Tonemap both flags are
true, and the freshly constructed system has no Gather or Tonemap in
flight. -/
theorem tonemap_dispatch_mutex_witness :
    (exTonemapState.gatherUnitAvailable = true ∧
      exTonemapState.tonemapUnitAvailable = true) ∧
    (gatherTonemapCount (initSys 2 0).inflight ≤ 1 ∧
      ((initSys 2 0).sched.gatherUnitAvailable = true →
        gatherTonemapCount (initSys 2 0).inflight = 0)) :=
  ⟨tonemap_dispatch_mutex.1 40000 exTonemapState (by decide),
   tonemap_dispatch_mutex.2 2 0 (initSys 2 0) ⟨[], rfl⟩⟩

/-- C3: conservation of units in every reachable system state: the
available, done and in-flight trace units are a permutation of
`{0..T-1}` (every index in exactly one category, counted once), the
counts sum to `T`, and likewise for plot units with `P`. -/
theorem unit_conservation (n t0 : Nat) (sys : Sys) (h : Reachable n t0 sys) :
    (sys.sched.availableTraceUnits ++ sys.sched.doneTraceUnits ++
      inflightTraceUnits sys.inflight).Perm (List.range sys.sched.numberOfTraceUnits) ∧
    (sys.sched.availablePlotUnits ++ sys.sched.donePlotUnits ++
      inflightPlotUnits sys.inflight).Perm (List.range sys.sched.numberOfPlotUnits) ∧
    sys.sched.availableTraceUnits.length + sys.sched.doneTraceUnits.length +
      (inflightTraceUnits sys.inflight).length = sys.sched.numberOfTraceUnits ∧
    sys.sched.availablePlotUnits.length + sys.sched.donePlotUnits.length +
      (inflightPlotUnits sys.inflight).length = sys.sched.numberOfPlotUnits ∧
    (∀ u, u < sys.sched.numberOfTraceUnits →
      (sys.sched.availableTraceUnits ++ sys.sched.doneTraceUnits ++
        inflightTraceUnits sys.inflight).count u = 1) ∧
    (∀ u, u < sys.sched.numberOfPlotUnits →
      (sys.sched.availablePlotUnits ++ sys.sched.donePlotUnits ++
        inflightPlotUnits sys.inflight).count u = 1) := by
  obtain ⟨script, rfl⟩ := h
  have hinit : UnitConservation (initSys n t0) := by
    constructor <;> simp [initSys, initState, inflightTraceUnits, inflightPlotUnits]
  obtain ⟨p1, p2⟩ := sysRun_conservation script _ hinit
  refine ⟨p1, p2, ?_, ?_, ?_, ?_⟩
  · have := p1.length_eq
    simp at this
    omega
  · have := p2.length_eq
    simp at this
    omega
  · intro u hu
    rw [p1.count_eq]
    exact List.count_eq_one_of_mem (List.nodup_range _) (List.mem_range.mpr hu)
  · intro u hu
    rw [p2.count_eq]
    exact List.count_eq_one_of_mem (List.nodup_range _) (List.mem_range.mpr hu)

/-- C3 witness: the freshly constructed two-thread system (T = 6,
P = 1) satisfies conservation. -/
theorem unit_conservation_witness :
    ((initSys 2 0).sched.availableTraceUnits ++ (initSys 2 0).sched.doneTraceUnits ++
      inflightTraceUnits (initSys 2 0).inflight).Perm (List.range 6) ∧
    ((initSys 2 0).sched.availablePlotUnits ++ (initSys 2 0).sched.donePlotUnits ++
      inflightPlotUnits (initSys 2 0).inflight).Perm (List.range 1) ∧
    (initSys 2 0).sched.availableTraceUnits.length +
      (initSys 2 0).sched.doneTraceUnits.length +
      (inflightTraceUnits (initSys 2 0).inflight).length = 6 ∧
    (initSys 2 0).sched.availablePlotUnits.length +
      (initSys 2 0).sched.donePlotUnits.length +
      (inflightPlotUnits (initSys 2 0).inflight).length = 1 ∧
    ((initSys 2 0).sched.availableTraceUnits ++ (initSys 2 0).sched.doneTraceUnits ++
      inflightTraceUnits (initSys 2 0).inflight).count 3 = 1 ∧
    ((initSys 2 0).sched.availablePlotUnits ++ (initSys 2 0).sched.donePlotUnits ++
      inflightPlotUnits (initSys 2 0).inflight).count 0 = 1 := by
  have H := unit_conservation 2 0 (initSys 2 0) ⟨[], rfl⟩
  exact ⟨H.1, H.2.1, H.2.2.1, H.2.2.2.1, H.2.2.2.2.1 3 (by decide),
    H.2.2.2.2.2 0 (by decide)⟩

/-- C8: the performance window never exceeds 512 samples in any
reachable state; a tonemap completion on a full window evicts the
oldest sample while appending the new one; and after any sequence of
tonemap completions the window is exactly the most recent 512 of the
accumulated samples (for 600 completions from an empty window, samples
89..600, i.e. all but the first 88). -/
theorem performance_window_bound :
    (∀ (n t0 : Nat) (sys : Sys), Reachable n t0 sys →
      sys.sched.performance.length ≤ 512) ∧
    (∀ (now : Nat) (s : SchedulerState), s.performance.length = 512 →
      (completeTonemapTask now s).performance =
        s.performance.tail ++ [tonemapSample now s]) ∧
    (∀ (ns : List Nat) (s : SchedulerState), s.performance.length ≤ 512 →
      (tonemapRun ns s).performance =
        (s.performance ++ tonemapSamples ns s).drop
          (s.performance.length + ns.length - 512)) := by
  refine ⟨?_, ?_, tonemapRun_performance⟩
  · rintro n t0 sys ⟨script, rfl⟩
    exact sysRun_perfLen script _ (by simp [initSys, initState])
  · intro now s h
    simp only [completeTonemapTask]
    exact pushPerformance_full _ _ h

/-- C8 witness: the initial window is within bound, a tonemap on the
full 512-sample window evicts the oldest entry, and 600 iterated
tonemap completions from the empty initial window retain exactly the
last 512 samples (drop the first 88 of 600). -/
theorem performance_window_bound_witness :
    (initSys 2 0).sched.performance.length ≤ 512 ∧
    (completeTonemapTask 1000 exFullWindowState).performance =
      exFullWindowState.performance.tail ++ [tonemapSample 1000 exFullWindowState] ∧
    (tonemapRun (List.replicate 600 1000) (initState 2 0)).performance =
      ((initState 2 0).performance ++
        tonemapSamples (List.replicate 600 1000) (initState 2 0)).drop
        ((initState 2 0).performance.length + (List.replicate 600 1000).length - 512) ∧
    (initState 2 0).performance.length + (List.replicate 600 1000).length - 512 = 88 :=
  ⟨performance_window_bound.1 2 0 (initSys 2 0) ⟨[], rfl⟩,
   performance_window_bound.2.1 1000 exFullWindowState
     (by rw [show exFullWindowState.performance = List.replicate 512 1 from rfl,
       List.length_replicate]),
   performance_window_bound.2.2 (List.replicate 600 1000) (initState 2 0)
     (by rw [show (initState 2 0).performance = [] from rfl]; decide),
   by rw [show (initState 2 0).performance = [] from rfl, List.length_replicate]; decide⟩

/-- C4 counterexample: a reachable execution with four worker threads in
which a Plot completes between a Gather's dispatch and its completion;
immediately after the Gather's completion is applied, the done-plot
queue is `[1]`, not empty. -/
theorem gather_completion_donePlot_nonempty :
    Reachable 4 0 gatherOverlapSys ∧
    gatherOverlapTask ∈ gatherOverlapSys.inflight ∧
    gatherOverlapTask.type = TaskType.Gather ∧
    (completeTask gatherOverlapTask 0 gatherOverlapSys.sched).donePlotUnits = [1] ∧
    (completeTask gatherOverlapTask 0 gatherOverlapSys.sched).donePlotUnits ≠ [] :=
  ⟨⟨gatherOverlapScript, rfl⟩, by decide, by decide, by decide, by decide⟩

/-- C4 amended: immediately after any Gather completion is applied,
`gatherAvailable = true`, `imageChanged = true` and the input plot units
are back in the available-plot queue; the completion leaves the
done-plot queue unchanged, so it is empty afterward exactly when no
Plot completion landed between the Gather's dispatch and completion. -/
theorem gather_completion_state (t : Task) (now : Nat) (s : SchedulerState)
    (ht : t.type = TaskType.Gather) :
    (completeTask t now s).gatherUnitAvailable = true ∧
    (completeTask t now s).imageChanged = true ∧
    (completeTask t now s).availablePlotUnits =
      s.availablePlotUnits ++ t.otherUnits.reverse ∧
    (completeTask t now s).donePlotUnits = s.donePlotUnits := by
  simp [completeTask, ht, completeGatherTask]

/-- C4 amended witness: completing the overlapped Gather of the
counterexample execution restores the gather unit and leaves the
done-plot queue as it was. -/
theorem gather_completion_state_witness :
    (completeTask gatherOverlapTask 0 gatherOverlapSys.sched).gatherUnitAvailable = true ∧
    (completeTask gatherOverlapTask 0 gatherOverlapSys.sched).imageChanged = true ∧
    (completeTask gatherOverlapTask 0 gatherOverlapSys.sched).availablePlotUnits =
      gatherOverlapSys.sched.availablePlotUnits ++ gatherOverlapTask.otherUnits.reverse ∧
    (completeTask gatherOverlapTask 0 gatherOverlapSys.sched).donePlotUnits =
      gatherOverlapSys.sched.donePlotUnits :=
  gather_completion_state gatherOverlapTask 0 gatherOverlapSys.sched (by decide)

end Luculentus
